import Mathlib

/-!
# Verification of the Gemini image-generator repository

Shallow embedding of the cost-accounting, response-extraction, task-state
and cleanup logic of the repository (files `gemini_image_generator.py`,
`app.py`, `web_api.py`), with theorems settling the specification claims.

Modelling conventions:
* Python floats are modelled as rationals (`ℚ`); every price in the static
  model table is an exact decimal, so the arithmetic of `calculate_cost`
  is exact over `ℚ`.
* Python `None`/missing attributes are modelled with `Option`.
* Raised exceptions are modelled with `Except`; a Python exception is
  represented by its class tag and its message string.
* File writes are modelled by recording the bytes written to the output
  destination (`Option (List ℕ)`; `none` means nothing was written).
-/

namespace GeminiGen

/-- Pricing record of a model entry in `GeminiImageGenerator.AVAILABLE_MODELS`
(`gemini_image_generator.py`, lines 31–34 and 41–44). -/
structure Pricing where
  input_cost_per_1k_chars : ℚ
  output_cost_per_image : ℚ
deriving Repr, DecidableEq

/-- One entry of the static model table (name, status and pricing; the
description/features strings are irrelevant to every claim and omitted). -/
structure ModelInfo where
  name : String
  status : String
  pricing : Pricing
deriving Repr, DecidableEq

/-- The static model table `GeminiImageGenerator.AVAILABLE_MODELS`
(`gemini_image_generator.py`, lines 25–46).  `0.00025 = 25/100000` and
`0.002734375 = 2734375/1000000000` exactly. -/
def AVAILABLE_MODELS : List (String × ModelInfo) :=
  [("gemini-2.5-flash-image-preview",
    { name := "Gemini 2.5 Flash Image (Nano Banana)"
      status := "Latest (Recommended)"
      pricing := { input_cost_per_1k_chars := 25 / 100000
                   output_cost_per_image := 2734375 / 1000000000 } }),
   ("gemini-2.0-flash-preview-image-generation",
    { name := "Gemini 2.0 Flash Image"
      status := "Deprecated (Sept 26, 2025)"
      pricing := { input_cost_per_1k_chars := 25 / 100000
                   output_cost_per_image := 2734375 / 1000000000 } })]

/-- The cost breakdown dictionary returned by
`GeminiImageGenerator.calculate_cost` (lines 138–144). -/
structure CostBreakdown where
  input_text_cost : ℚ
  input_image_cost : ℚ
  output_image_cost : ℚ
  total_cost : ℚ
  input_chars : ℕ
deriving Repr, DecidableEq

/-- Model of `GeminiImageGenerator.calculate_cost` (`gemini_image_generator.py`,
lines 114–144).  The source indexes `AVAILABLE_MODELS[self.model]`; a key
miss (Python `KeyError`, impossible after the constructor check at lines
61–62) is modelled by `none`. -/
def calculate_cost (model : String) (prompt : String)
    (has_input_image : Bool) : Option CostBreakdown :=
  match AVAILABLE_MODELS.lookup model with
  | none => none
  | some info =>
    let pricing := info.pricing
    let input_chars := prompt.length
    let input_cost := ((input_chars : ℚ) / 1000) * pricing.input_cost_per_1k_chars
    let output_cost := pricing.output_cost_per_image
    let input_image_cost := if has_input_image then pricing.output_cost_per_image else 0
    let total := input_cost + output_cost + input_image_cost
    some { input_text_cost := input_cost
           input_image_cost := input_image_cost
           output_image_cost := output_cost
           total_cost := total
           input_chars := input_chars }

end GeminiGen

namespace GeminiGen

/-- The 2.5 model's identifier, the default model of the constructor. -/
def defaultModel : String := "gemini-2.5-flash-image-preview"

theorem lookup_of_mem_AVAILABLE_MODELS {mid : String} {info : ModelInfo}
    (h : (mid, info) ∈ AVAILABLE_MODELS) :
    AVAILABLE_MODELS.lookup mid = some info := by
  simp only [AVAILABLE_MODELS, List.mem_cons, List.not_mem_nil, or_false,
    Prod.mk.injEq] at h
  rcases h with ⟨h1, h2⟩ | ⟨h1, h2⟩ <;> subst h1 <;> subst h2 <;> rfl

end GeminiGen

namespace GeminiGen

/-- Claim C1. For every prompt `P` of length `L` and every model `M` in the
static model table, `calculate_cost(P, M, has_input_image := false)` returns
a breakdown with `input_chars = L`,
`input_text_cost = (L/1000) * M.input_cost_per_1k_chars`,
`output_image_cost = M.output_cost_per_image`, `input_image_cost = 0` and
`total_cost = (L/1000) * M.input_cost_per_1k_chars + M.output_cost_per_image`;
with `has_input_image := true` the total is exactly `M.output_cost_per_image`
larger. -/
theorem calculate_cost_spec (p : String) (mid : String) (info : ModelInfo)
    (hm : (mid, info) ∈ AVAILABLE_MODELS) :
    calculate_cost mid p false = some
      { input_text_cost :=
          ((p.length : ℚ) / 1000) * info.pricing.input_cost_per_1k_chars
        input_image_cost := 0
        output_image_cost := info.pricing.output_cost_per_image
        total_cost :=
          ((p.length : ℚ) / 1000) * info.pricing.input_cost_per_1k_chars
            + info.pricing.output_cost_per_image
        input_chars := p.length } ∧
    (calculate_cost mid p true).map CostBreakdown.total_cost =
      (calculate_cost mid p false).map
        (fun c => c.total_cost + info.pricing.output_cost_per_image) := by
  have hl := lookup_of_mem_AVAILABLE_MODELS hm
  constructor <;> simp [calculate_cost, hl]

/-- Witness for C1 at the prompt `"abc"` and the first table entry. -/
theorem calculate_cost_spec_witness :
    calculate_cost defaultModel "abc" false = some
      { input_text_cost := ((("abc").length : ℚ) / 1000) * (25 / 100000)
        input_image_cost := 0
        output_image_cost := 2734375 / 1000000000
        total_cost :=
          ((("abc").length : ℚ) / 1000) * (25 / 100000) + 2734375 / 1000000000
        input_chars := ("abc").length } ∧
    (calculate_cost defaultModel "abc" true).map CostBreakdown.total_cost =
      (calculate_cost defaultModel "abc" false).map
        (fun c => c.total_cost + 2734375 / 1000000000) :=
  calculate_cost_spec "abc" defaultModel
    { name := "Gemini 2.5 Flash Image (Nano Banana)"
      status := "Latest (Recommended)"
      pricing := { input_cost_per_1k_chars := 25 / 100000
                   output_cost_per_image := 2734375 / 1000000000 } }
    (by simp [AVAILABLE_MODELS, defaultModel])

/-- Claim C8. Whenever `calculate_cost` returns a breakdown (any prompt, any
model identifier, either value of `has_input_image`), its `total_cost`
equals `input_text_cost + input_image_cost + output_image_cost`. -/
theorem total_cost_is_sum (p mid : String) (b : Bool) (c : CostBreakdown)
    (h : calculate_cost mid p b = some c) :
    c.total_cost = c.input_text_cost + c.input_image_cost + c.output_image_cost := by
  unfold calculate_cost at h
  cases hl : AVAILABLE_MODELS.lookup mid with
  | none => rw [hl] at h; exact absurd h (by simp)
  | some info =>
    rw [hl] at h
    simp only [Option.some.injEq] at h
    subst h
    simp only []
    ring

/-- Witness for C8 at a concrete prompt, model and flag. -/
theorem total_cost_is_sum_witness :
    calculate_cost defaultModel "hi" true = some
      { input_text_cost := 1 / 2000000
        input_image_cost := 2734375 / 1000000000
        output_image_cost := 2734375 / 1000000000
        total_cost := 5469250 / 1000000000
        input_chars := 2 } ∧
    (5469250 / 1000000000 : ℚ) =
      1 / 2000000 + 2734375 / 1000000000 + 2734375 / 1000000000 := by
  have hc : calculate_cost defaultModel "hi" true = some
      { input_text_cost := 1 / 2000000
        input_image_cost := 2734375 / 1000000000
        output_image_cost := 2734375 / 1000000000
        total_cost := 5469250 / 1000000000
        input_chars := 2 } := by
    have h2 : ("hi").length = 2 := rfl
    simp [calculate_cost, defaultModel, AVAILABLE_MODELS, h2]
    norm_num
  refine ⟨hc, ?_⟩
  exact total_cost_is_sum "hi" defaultModel true
    { input_text_cost := 1 / 2000000
      input_image_cost := 2734375 / 1000000000
      output_image_cost := 2734375 / 1000000000
      total_cost := 5469250 / 1000000000
      input_chars := 2 } hc

/-- The example prompt of the specification's worked example. -/
def examplePrompt : String := "A red circle on white background"

/-- Claim C9 (counterexample). The example prompt has 32 characters, not 33 as
the claim states, so the claimed numbers fail: `input_text_cost` is exactly
`0.000008`, not `≈ 0.00000825` (it misses the claimed value by `2.5e-7`,
far more than half a unit in the claimed value's last printed decimal,
`5e-9`), and `total_cost` is exactly `0.002742375`, which differs from the
claimed `≈ 0.0027426` by `2.25e-7`, more than the half-ulp `5e-8`. -/
theorem example_cost_not_as_claimed :
    calculate_cost defaultModel examplePrompt false = some
      { input_text_cost := 1 / 125000
        input_image_cost := 0
        output_image_cost := 2734375 / 1000000000
        total_cost := 2742375 / 1000000000
        input_chars := 32 } ∧
    (32 : ℕ) ≠ 33 ∧
    |(1 / 125000 : ℚ) - 825 / 100000000| > 5 / 1000000000 ∧
    |(2742375 / 1000000000 : ℚ) - 27426 / 10000000| > 5 / 100000000 := by
  have h32 : ("A red circle on white background").length = 32 := rfl
  refine ⟨?_, by norm_num, ?_, ?_⟩
  · simp [calculate_cost, defaultModel, AVAILABLE_MODELS, examplePrompt]
    norm_num [h32]
  · rw [show (1 / 125000 : ℚ) - 825 / 100000000 = -(1 / 4000000) by norm_num,
      abs_neg, abs_of_pos (show (0 : ℚ) < 1 / 4000000 by norm_num)]
    norm_num
  · rw [show (2742375 / 1000000000 : ℚ) - 27426 / 10000000 = -(9 / 40000000) by norm_num,
      abs_neg, abs_of_pos (show (0 : ℚ) < 9 / 40000000 by norm_num)]
    norm_num

/-- Claim C9 (amended). For the example prompt (32 characters) with the
table's pricing (`0.00025` per 1K chars, `0.002734375` per image) and no
input image, the estimate yields `input_text_cost = 0.000008` exactly and
`total_cost = 0.002742375` (so `≈ 0.0027424` at the precision the spec's
example uses). -/
theorem example_cost_actual :
    calculate_cost defaultModel examplePrompt false = some
      { input_text_cost := 8 / 1000000
        input_image_cost := 0
        output_image_cost := 2734375 / 1000000000
        total_cost := 2742375 / 1000000000
        input_chars := 32 } ∧
    |(2742375 / 1000000000 : ℚ) - 27424 / 10000000| ≤ 5 / 100000000 := by
  have h32 : ("A red circle on white background").length = 32 := rfl
  constructor
  · simp [calculate_cost, defaultModel, AVAILABLE_MODELS, examplePrompt]
    norm_num [h32]
  · rw [show (2742375 / 1000000000 : ℚ) - 27424 / 10000000 = -(1 / 40000000) by norm_num,
      abs_neg, abs_of_pos (show (0 : ℚ) < 1 / 40000000 by norm_num)]
    norm_num

/-- Inline payload of a response part.  `part.inline_data.data` is either
already raw bytes (`isinstance(..., bytes)` branch, lines 184–185) or a
base64 string (fallback branch, lines 187–191).  The external library's
`base64.b64decode` is outside the repository; its result on the string is
carried alongside as `decoded` (`none` models a failed decode, which the
source answers with `continue`). -/
inductive PartData
  | raw (bytes : List ℕ)
  | b64 (text : String) (decoded : Option (List ℕ))
deriving Repr, DecidableEq

/-- Python `len(part.inline_data.data)` (line 182): length of the bytes, or
of the base64 string when the payload arrived as a string. -/
def PartData.dataLen : PartData → ℕ
  | .raw bs => bs.length
  | .b64 s _ => s.length

/-- Model of `part.inline_data` with its declared MIME type. -/
structure InlineData where
  mime_type : String
  data : PartData
deriving Repr, DecidableEq

/-- One content part; `inline_data := none` models a part without inline
data (e.g. a text part), covering both the `hasattr` test and Python
falsiness at line 180. -/
structure Part where
  inline_data : Option InlineData
deriving Repr, DecidableEq

/-- Model of `candidate.content` with its list of parts. -/
structure Content where
  parts : List Part
deriving Repr, DecidableEq

/-- One candidate of the response. -/
structure Candidate where
  content : Content
deriving Repr, DecidableEq

/-- The response object returned by `client.models.generate_content`. -/
structure Response where
  candidates : List Candidate
deriving Repr, DecidableEq

/-- Python's `str.startswith`, evaluated on the character sequences of the
two strings. -/
def strStartsWith (s pre : String) : Bool := pre.data.isPrefixOf s.data

/-- The body of the part loop (lines 180–191): the bytes this part
contributes, or `none` when the part is skipped (no inline data, wrong MIME
type, payload not larger than 1000, or base64 decode failure). -/
def partImage (p : Part) : Option (List ℕ) :=
  match p.inline_data with
  | none => none
  | some d =>
    if strStartsWith d.mime_type "image/" = true ∧ 1000 < d.data.dataLen then
      match d.data with
      | .raw bs => some bs
      | .b64 _ decoded => decoded
    else none

/-- The candidate/part scan of lines 178–196: first qualifying part's
bytes, scanning candidates in order and parts in order. -/
def findImage (cands : List Candidate) : Option (List ℕ) :=
  cands.findSome? fun c => c.content.parts.findSome? partImage

/-- Python exceptions raised by the generator, tagged by class. -/
inductive PyError
  | valueError (msg : String)
  | runtimeError (msg : String)
  | keyError (key : String)
deriving Repr, DecidableEq

/-- Model of `str(e)` for a Python exception (for `KeyError` Python prints the
quoted key). -/
def PyError.message : PyError → String
  | .valueError m => m
  | .runtimeError m => m
  | .keyError k => "'" ++ k ++ "'"

/-- Outcome of the external `generate_content` call: either the transport /
API client raised an exception with the given message, or it returned a
value (`none` models a falsy/`None` response, line 171). -/
inductive ApiOutcome
  | raises (msg : String)
  | returns (response : Option Response)
deriving Repr, DecidableEq

/-- Result of one generation call: the session total after the call, the
bytes written to the output destination (if any), and the returned path or
raised exception. -/
inductive GenOutcome
  | ok (path : String)
  | err (e : PyError)
deriving Repr, DecidableEq

structure GenResult where
  total_cost : ℚ
  written : Option (List ℕ)
  outcome : GenOutcome
deriving Repr, DecidableEq

/-- The response checks and scan of the `try` block (lines 171–198),
shared verbatim between `generate_image_from_prompt` and
`generate_image_with_input`.  The error string is the raised `ValueError`
message. -/
def extractImage (resp : Option Response) : Except String (List ℕ) :=
  match resp with
  | none => .error "No response received from Gemini API"
  | some r =>
    if r.candidates.isEmpty then .error "No candidates in response"
    else
      match findImage r.candidates with
      | some bytes => .ok bytes
      | none => .error "No image generated in response"

/-- The external call followed by the response scan: an exception raised by
the client propagates to the `except` clause just like a `ValueError`
raised by the checks. -/
def attemptGeneration (api : ApiOutcome) : Except String (List ℕ) :=
  match api with
  | .raises m => .error m
  | .returns resp => extractImage resp

/-- Model of `GeminiImageGenerator.generate_image_from_prompt` (lines 146–201).
The session total is incremented by the estimated cost at line 162,
before the `try` block; any exception of the `try` block is re-raised as
`RuntimeError("Failed to generate image: ...")` by lines 200–201.  The
(unreachable after the constructor check) table miss at line 124 is a
`KeyError` raised before the increment. -/
def generate_image_from_prompt (total : ℚ) (model prompt output_path : String)
    (api : ApiOutcome) : GenResult :=
  match calculate_cost model prompt false with
  | none => { total_cost := total, written := none, outcome := .err (.keyError model) }
  | some cost_info =>
    let total1 := total + cost_info.total_cost
    match attemptGeneration api with
    | .ok bytes =>
      { total_cost := total1, written := some bytes, outcome := .ok output_path }
    | .error m =>
      { total_cost := total1, written := none,
        outcome := .err (.runtimeError ("Failed to generate image: " ++ m)) }

/-- Model of `GeminiImageGenerator.generate_image_with_input` (lines 203–270): same
shape, with `has_input_image := true` and a preceding `load_image` step
(`load` is its outcome: bytes and MIME type, or the raised exception's
message); a load failure happens inside the `try` block, before the
external call. -/
def generate_image_with_input (total : ℚ) (model prompt output_path : String)
    (load : Except String (List ℕ × String)) (api : ApiOutcome) : GenResult :=
  match calculate_cost model prompt true with
  | none => { total_cost := total, written := none, outcome := .err (.keyError model) }
  | some cost_info =>
    let total1 := total + cost_info.total_cost
    match load with
    | .error m =>
      { total_cost := total1, written := none,
        outcome := .err (.runtimeError ("Failed to generate image: " ++ m)) }
    | .ok _ =>
      match attemptGeneration api with
      | .ok bytes =>
        { total_cost := total1, written := some bytes, outcome := .ok output_path }
      | .error m =>
        { total_cost := total1, written := none,
          outcome := .err (.runtimeError ("Failed to generate image: " ++ m)) }


/-- A text part: no inline data. -/
def textPart : Part := { inline_data := none }

/-- An image part carrying raw PNG bytes. -/
def imgPart (bytes : List ℕ) : Part :=
  { inline_data := some { mime_type := "image/png", data := .raw bytes } }

theorem findSome?_append_singleton {α β : Type} (f : α → Option β)
    (l : List α) (hl : ∀ p ∈ l, f p = none) (x : α) :
    (l ++ [x]).findSome? f = f x := by
  induction l with
  | nil => cases h : f x <;> simp [List.findSome?, h]
  | cons a t ih =>
    have ha : f a = none := hl a (List.mem_cons_self a t)
    have ht : ∀ p ∈ t, f p = none := fun p hp => hl p (List.mem_cons_of_mem a hp)
    simpa [List.findSome?, ha] using ih ht

theorem partImage_textPart : partImage textPart = none := rfl

theorem partImage_boundary (bs : List ℕ) (h : bs.length = 1000) :
    partImage (imgPart bs) = none := by
  simp [partImage, imgPart, PartData.dataLen, h]

theorem boundary_aux (bs : List ℕ) (h : bs.length = 1000) :
    (generate_image_from_prompt 0 defaultModel "p" "out.png"
      (.returns (some { candidates :=
        [{ content := { parts := [textPart, imgPart bs] } }] }))).written = none ∧
    (generate_image_from_prompt 0 defaultModel "p" "out.png"
      (.returns (some { candidates :=
        [{ content := { parts := [textPart, imgPart bs] } }] }))).outcome
      ≠ .ok "out.png" := by
  have hfind : findImage [{ content := { parts := [textPart, imgPart bs] } }] = none := by
    simp [findImage, List.findSome?, partImage_textPart, partImage_boundary bs h]
  constructor <;>
    simp [generate_image_from_prompt, attemptGeneration, extractImage, hfind,
      calculate_cost, defaultModel, AVAILABLE_MODELS]

end GeminiGen

namespace GeminiGen

/-- Claim C2 (counterexample). An image part whose inline data is exactly
1000 bytes is *at least* 1000 bytes, yet the scan requires strictly more
than 1000 (`> 1000`, line 182): for a response with one candidate holding a
text part and then a 1000-byte image part, nothing is written and the call
does not return the output path. -/
theorem boundary_part_not_written :
    (generate_image_from_prompt 0 defaultModel "p" "out.png"
      (.returns (some { candidates :=
        [{ content := { parts := [textPart, imgPart (List.replicate 1000 7)] } }] }))).written
      = none ∧
    (generate_image_from_prompt 0 defaultModel "p" "out.png"
      (.returns (some { candidates :=
        [{ content := { parts := [textPart, imgPart (List.replicate 1000 7)] } }] }))).outcome
      ≠ .ok "out.png" :=
  boundary_aux (List.replicate 1000 7) (List.length_replicate 1000 7)

/-- Claim C2 (amended). Given a response with one candidate whose parts are a
prefix of non-qualifying parts (e.g. text parts) followed by an image part
with raw inline data of *strictly more than* 1000 bytes and a MIME type
starting with `image/`, the generation writes exactly that part's bytes to
the output destination and returns the output path (the scan takes the
first qualifying part). -/
theorem first_image_part_written (total : ℚ) (mid : String) (info : ModelInfo)
    (hm : (mid, info) ∈ AVAILABLE_MODELS) (prompt out mime : String)
    (pre : List Part) (hpre : ∀ p ∈ pre, partImage p = none)
    (bytes : List ℕ) (hlen : 1000 < bytes.length)
    (hmime : strStartsWith mime "image/" = true) :
    (generate_image_from_prompt total mid prompt out
      (.returns (some { candidates := [{ content := { parts := pre ++
        [{ inline_data := some { mime_type := mime, data := .raw bytes } }] } }] }))).written
      = some bytes ∧
    (generate_image_from_prompt total mid prompt out
      (.returns (some { candidates := [{ content := { parts := pre ++
        [{ inline_data := some { mime_type := mime, data := .raw bytes } }] } }] }))).outcome
      = .ok out := by
  have hl := lookup_of_mem_AVAILABLE_MODELS hm
  have himg : partImage
      { inline_data := some { mime_type := mime, data := .raw bytes } } = some bytes := by
    simp [partImage, PartData.dataLen, hmime, hlen]
  have hfind : findImage [{ content := { parts := pre ++
      [{ inline_data := some { mime_type := mime, data := PartData.raw bytes } }] } }]
      = some bytes := by
    simp [findImage, List.findSome?, findSome?_append_singleton partImage pre hpre, himg]
  constructor <;>
    simp [generate_image_from_prompt, attemptGeneration, extractImage, hfind,
      calculate_cost, hl]

/-- Witness for the amended C2 at a concrete response: a text part followed
by a 1001-byte PNG part. -/
theorem first_image_part_written_witness :
    (generate_image_from_prompt 0 defaultModel "p" "out.png"
      (.returns (some { candidates := [{ content := { parts := [textPart] ++
        [{ inline_data := some { mime_type := "image/png",
                                 data := .raw (List.replicate 1001 7) } }] } }] }))).written
      = some (List.replicate 1001 7) ∧
    (generate_image_from_prompt 0 defaultModel "p" "out.png"
      (.returns (some { candidates := [{ content := { parts := [textPart] ++
        [{ inline_data := some { mime_type := "image/png",
                                 data := .raw (List.replicate 1001 7) } }] } }] }))).outcome
      = .ok "out.png" :=
  first_image_part_written 0 defaultModel
    { name := "Gemini 2.5 Flash Image (Nano Banana)"
      status := "Latest (Recommended)"
      pricing := { input_cost_per_1k_chars := 25 / 100000
                   output_cost_per_image := 2734375 / 1000000000 } }
    (by simp [AVAILABLE_MODELS, defaultModel]) "p" "out.png" "image/png"
    [textPart] (by intro p hp; simp only [List.mem_singleton] at hp; subst hp; rfl)
    (List.replicate 1001 7) (by rw [List.length_replicate]; norm_num) (by decide)

end GeminiGen

namespace GeminiGen

/-- The estimated cost that one `generate_image_from_prompt` attempt adds to
the session total at line 162 (zero when the table lookup itself raises, in
which case the increment is never reached). -/
def attemptCost (mid prompt : String) : ℚ :=
  match calculate_cost mid prompt false with
  | some c => c.total_cost
  | none => 0

/-- The estimated cost that one `generate_image_with_input` attempt adds to
the session total at line 222. -/
def attemptCostWithInput (mid prompt : String) : ℚ :=
  match calculate_cost mid prompt true with
  | some c => c.total_cost
  | none => 0

theorem from_prompt_total (t : ℚ) (mid prompt out : String) (api : ApiOutcome) :
    (generate_image_from_prompt t mid prompt out api).total_cost
      = t + attemptCost mid prompt := by
  unfold generate_image_from_prompt attemptCost
  cases h : calculate_cost mid prompt false with
  | none => simp
  | some c => cases hA : attemptGeneration api <;> simp

theorem with_input_total (t : ℚ) (mid prompt out : String)
    (load : Except String (List ℕ × String)) (api : ApiOutcome) :
    (generate_image_with_input t mid prompt out load api).total_cost
      = t + attemptCostWithInput mid prompt := by
  unfold generate_image_with_input attemptCostWithInput
  cases h : calculate_cost mid prompt true with
  | none => simp
  | some c =>
    cases load with
    | error m => simp
    | ok l => cases hA : attemptGeneration api <;> simp

end GeminiGen

namespace GeminiGen

/-- Claim C4 (counterexample). A generation attempt that fails (here: the
transport raises) still increases the session total: starting from a total
of `0`, after the failed `generate_image_from_prompt` attempt the total is
`0.002734625`, not `0`.  The increment at line 162 precedes the `try`
block, so the cost is charged for the attempt, not the outcome. -/
theorem failed_attempt_changes_total :
    (generate_image_from_prompt 0 defaultModel "p" "out.png" (.raises "boom")).total_cost
      = 2734625 / 1000000000 ∧
    (generate_image_from_prompt 0 defaultModel "p" "out.png" (.raises "boom")).outcome
      = .err (.runtimeError "Failed to generate image: boom") ∧
    (2734625 / 1000000000 : ℚ) ≠ 0 := by
  have h1 : ("p").length = 1 := rfl
  refine ⟨?_, ?_, by norm_num⟩ <;>
    simp [generate_image_from_prompt, attemptGeneration, calculate_cost,
      defaultModel, AVAILABLE_MODELS] <;> norm_num [h1]

/-- Claim C4 (amended). The session total is incremented by the estimated
cost of the request at the *start* of every generation attempt, successful
or not (billing-on-attempt): after any `generate_image_from_prompt` or
`generate_image_with_input` call the session total equals the previous
total plus the estimate; only an explicit reset sets it back to zero. -/
theorem session_total_charged_on_attempt (t : ℚ) (mid prompt out : String)
    (api : ApiOutcome) (load : Except String (List ℕ × String)) :
    (generate_image_from_prompt t mid prompt out api).total_cost
      = t + attemptCost mid prompt ∧
    (generate_image_with_input t mid prompt out load api).total_cost
      = t + attemptCostWithInput mid prompt :=
  ⟨from_prompt_total t mid prompt out api, with_input_total t mid prompt out load api⟩

end GeminiGen

namespace GeminiGen

theorem strStartsWith_png : strStartsWith "image/png" "image/" = true := by decide

/-- Claim C6 (amended). When the response has candidates but no part
qualifies, the generation fails and writes nothing; however the
`ValueError("No image generated in response")` raised at line 198 is caught
by the function's own `except` clause (line 200) and re-raised as the same
generic `RuntimeError("Failed to generate image: ...")` wrapper used for
transport failures, so the no-image condition is distinguishable only by
message, not by a distinct exception type. -/
theorem no_image_error_wrapped (t : ℚ) (mid : String) (info : ModelInfo)
    (hm : (mid, info) ∈ AVAILABLE_MODELS) (prompt out : String) (resp : Response)
    (hne : resp.candidates ≠ []) (hfind : findImage resp.candidates = none) :
    (generate_image_from_prompt t mid prompt out (.returns (some resp))).written = none ∧
    (generate_image_from_prompt t mid prompt out (.returns (some resp))).outcome
      = .err (.runtimeError "Failed to generate image: No image generated in response") := by
  have hl := lookup_of_mem_AVAILABLE_MODELS hm
  have hE : resp.candidates.isEmpty = false := by
    cases hc : resp.candidates with
    | nil => exact absurd hc hne
    | cons a l => rfl
  constructor <;>
    simp [generate_image_from_prompt, attemptGeneration, extractImage,
      calculate_cost, hl, hE, hfind]

/-- Witness for the amended C6: a response whose only image-like part holds
3 bytes of inline data. -/
theorem no_image_error_wrapped_witness :
    (generate_image_from_prompt 0 defaultModel "p" "out.png"
      (.returns (some { candidates :=
        [{ content := { parts := [imgPart [1, 2, 3]] } }] }))).written = none ∧
    (generate_image_from_prompt 0 defaultModel "p" "out.png"
      (.returns (some { candidates :=
        [{ content := { parts := [imgPart [1, 2, 3]] } }] }))).outcome
      = .err (.runtimeError "Failed to generate image: No image generated in response") :=
  no_image_error_wrapped 0 defaultModel
    { name := "Gemini 2.5 Flash Image (Nano Banana)"
      status := "Latest (Recommended)"
      pricing := { input_cost_per_1k_chars := 25 / 100000
                   output_cost_per_image := 2734375 / 1000000000 } }
    (by simp [AVAILABLE_MODELS, defaultModel]) "p" "out.png"
    { candidates := [{ content := { parts := [imgPart [1, 2, 3]] } }] }
    (by simp)
    (by simp [findImage, List.findSome?, partImage, imgPart, PartData.dataLen])

/-- Claim C6 (counterexample). With a response whose only image-like part is
under 1000 bytes, the surfaced failure is the generic wrapper
`RuntimeError("Failed to generate image: No image generated in response")`
— the same exception class a transport failure is wrapped into — and not a
distinct exception (the internally raised `ValueError` never reaches the
caller).  No bytes are written. -/
theorem no_image_error_not_distinct :
    (generate_image_from_prompt 0 defaultModel "p" "out.png"
      (.returns (some { candidates :=
        [{ content := { parts := [imgPart [4, 5, 6]] } }] }))).outcome
      = .err (.runtimeError "Failed to generate image: No image generated in response") ∧
    (generate_image_from_prompt 0 defaultModel "p" "out.png"
      (.returns (some { candidates :=
        [{ content := { parts := [imgPart [4, 5, 6]] } }] }))).outcome
      ≠ .err (.valueError "No image generated in response") ∧
    (generate_image_from_prompt 0 defaultModel "p" "out.png"
      (.returns (some { candidates :=
        [{ content := { parts := [imgPart [4, 5, 6]] } }] }))).written = none ∧
    (generate_image_from_prompt 0 defaultModel "p" "out.png"
      (.raises "transport down")).outcome
      = .err (.runtimeError "Failed to generate image: transport down") := by
  have hfind : findImage [{ content := { parts := [imgPart [4, 5, 6]] } }] = none := by
    simp [findImage, List.findSome?, partImage, imgPart, PartData.dataLen]
  refine ⟨?_, ?_, ?_, ?_⟩ <;>
    simp [generate_image_from_prompt, attemptGeneration, extractImage, hfind,
      calculate_cost, defaultModel, AVAILABLE_MODELS]

end GeminiGen

namespace GeminiGen

/-- Python's `str.strip()`: drop leading and trailing whitespace, modelled
on the character sequence. -/
def strStrip (s : String) : String :=
  ⟨((s.data.dropWhile Char.isWhitespace).reverse.dropWhile Char.isWhitespace).reverse⟩

/-- Model of `app.py` `/api/generate` (lines 43–87).  `prompt0` is
`data.get('prompt', '')`; the uploaded-JSON parsing, the temp file and the
base64 re-encoding of the result are presentation plumbing outside the
model.  Returns the generator's session total after the request together
with the HTTP reply: `(status, message)` on error, or the reported
`session_total`.  Note line 77: on success the endpoint adds
`cost_info['total_cost']` to `generator.total_cost` again, on top of the
increment `generate_image_from_prompt` itself already performed. -/
def app_generate_image (total : ℚ) (prompt0 model output_path : String)
    (api : ApiOutcome) : ℚ × Except (ℕ × String) ℚ :=
  let prompt := strStrip prompt0
  if prompt.data.isEmpty = true then (total, .error (400, "Prompt is required"))
  else
    match calculate_cost model prompt false with
    | none => (total, .error (500, "'" ++ model ++ "'"))
    | some cost_info =>
      let r := generate_image_from_prompt total model prompt output_path api
      match r.outcome with
      | .err e => (r.total_cost, .error (500, e.message))
      | .ok _ =>
        (r.total_cost + cost_info.total_cost,
         .ok (r.total_cost + cost_info.total_cost))

/-- Model of `app.py` `/api/reset_cost` (lines 150–156): set the session total to
`0.0` when the generator exists, else report a 500. -/
def app_reset_cost (genInit : Bool) (total : ℚ) : ℚ × Except (ℕ × String) ℚ :=
  if genInit then (0, .ok 0)
  else (total, .error (500, "Generator not initialized"))

/-- The session total after a sequence of `generate_image_from_prompt`
calls on one generator instance (each call: a prompt and the external
call's outcome). -/
def sessionAfter (mid out : String) (calls : List (String × ApiOutcome))
    (total : ℚ) : ℚ :=
  calls.foldl
    (fun t c => (generate_image_from_prompt t mid c.1 out c.2).total_cost) total

theorem sessionAfter_eq (mid out : String) :
    ∀ (calls : List (String × ApiOutcome)) (total : ℚ),
      sessionAfter mid out calls total
        = total + (calls.map fun c => attemptCost mid c.1).sum := by
  intro calls
  induction calls with
  | nil => intro t; simp [sessionAfter]
  | cons c rest ih =>
    intro t
    have h1 : sessionAfter mid out (c :: rest) t =
        sessionAfter mid out rest
          ((generate_image_from_prompt t mid c.1 out c.2).total_cost) := rfl
    rw [h1, ih, from_prompt_total]
    simp only [List.map_cons, List.sum_cons]
    ring

end GeminiGen

namespace GeminiGen

theorem web_double_aux (bs : List ℕ) (h : 1000 < bs.length) :
    (generate_image_from_prompt 0 defaultModel "p" "out.png"
      (.returns (some { candidates :=
        [{ content := { parts := [imgPart bs] } }] }))).outcome = .ok "out.png" ∧
    (generate_image_from_prompt 0 defaultModel "p" "out.png"
      (.returns (some { candidates :=
        [{ content := { parts := [imgPart bs] } }] }))).total_cost
      = 2734625 / 1000000000 ∧
    (app_generate_image 0 "p" defaultModel "out.png"
      (.returns (some { candidates :=
        [{ content := { parts := [imgPart bs] } }] }))).1
      = 5469250 / 1000000000 := by
  have h1 : ("p").length = 1 := rfl
  have himg : partImage (imgPart bs) = some bs := by
    simp [partImage, imgPart, PartData.dataLen, h, strStartsWith_png]
  have hfind : findImage [{ content := { parts := [imgPart bs] } }] = some bs := by
    simp [findImage, List.findSome?, himg]
  have hci : calculate_cost defaultModel "p" false = some
      { input_text_cost := 1 / 4000000
        input_image_cost := 0
        output_image_cost := 2734375 / 1000000000
        total_cost := 2734625 / 1000000000
        input_chars := 1 } := by
    simp [calculate_cost, defaultModel, AVAILABLE_MODELS]
    norm_num [h1]
  have hout : (generate_image_from_prompt 0 defaultModel "p" "out.png"
      (.returns (some { candidates :=
        [{ content := { parts := [imgPart bs] } }] }))).outcome = .ok "out.png" := by
    simp [generate_image_from_prompt, attemptGeneration, extractImage, hfind, hci]
  have htot : (generate_image_from_prompt 0 defaultModel "p" "out.png"
      (.returns (some { candidates :=
        [{ content := { parts := [imgPart bs] } }] }))).total_cost
      = 2734625 / 1000000000 := by
    simp [generate_image_from_prompt, attemptGeneration, extractImage, hfind, hci]
  have hs : strStrip "p" = "p" := rfl
  have hne : ("p").data.isEmpty = false := rfl
  refine ⟨hout, htot, ?_⟩
  simp only [app_generate_image, hs, hne, Bool.false_eq_true, if_false, hci, hout, htot]
  norm_num

end GeminiGen

namespace GeminiGen

/-- Claim C3 (counterexample). One successful generation through the `app.py`
web endpoint: the individual breakdown's `total_cost` is `0.002734625`
(and the generator itself accumulates exactly that), but the endpoint adds
the cost a second time (line 77 of `app.py`), leaving the session total at
`0.00546925 = 2 × 0.002734625` — not the sum of the individual costs. -/
theorem web_endpoint_double_counts :
    (generate_image_from_prompt 0 defaultModel "p" "out.png"
      (.returns (some { candidates :=
        [{ content := { parts := [imgPart (List.replicate 1001 9)] } }] }))).outcome
      = .ok "out.png" ∧
    (generate_image_from_prompt 0 defaultModel "p" "out.png"
      (.returns (some { candidates :=
        [{ content := { parts := [imgPart (List.replicate 1001 9)] } }] }))).total_cost
      = 2734625 / 1000000000 ∧
    (app_generate_image 0 "p" defaultModel "out.png"
      (.returns (some { candidates :=
        [{ content := { parts := [imgPart (List.replicate 1001 9)] } }] }))).1
      = 5469250 / 1000000000 ∧
    (5469250 / 1000000000 : ℚ) ≠ 2734625 / 1000000000 := by
  have h := web_double_aux (List.replicate 1001 9)
    (by rw [List.length_replicate]; norm_num)
  exact ⟨h.1, h.2.1, h.2.2, by norm_num⟩

/-- Claim C3 (amended). At the generator level the accounting is as claimed:
after `N` calls the session total equals the sum of the estimated costs of
the `N` calls (in particular of the `N` individual `total_cost` values when
all calls succeed), and the reset endpoint sets the total to exactly `0.0`.
But the `app.py` web endpoint adds each successful generation's cost a
second time, so a generation completed through it increases the session
total by `2 ×` its breakdown's `total_cost`. -/
theorem session_total_accounting (mid out : String)
    (calls : List (String × ApiOutcome))
    (hsucc : ∀ c ∈ calls, ∃ pth,
      (generate_image_from_prompt 0 mid c.1 out c.2).outcome = GenOutcome.ok pth)
    (t : ℚ) (prompt0 model out2 pth : String) (api : ApiOutcome)
    (ci : CostBreakdown)
    (hne : (strStrip prompt0).data.isEmpty = false)
    (hci : calculate_cost model (strStrip prompt0) false = some ci)
    (hok : (generate_image_from_prompt t model (strStrip prompt0) out2 api).outcome
      = GenOutcome.ok pth) :
    sessionAfter mid out calls 0 = (calls.map fun c => attemptCost mid c.1).sum ∧
    (app_generate_image t prompt0 model out2 api).1 = t + 2 * ci.total_cost ∧
    app_reset_cost true t = (0, .ok 0) := by
  refine ⟨?_, ?_, rfl⟩
  · rw [sessionAfter_eq]; ring
  · have hr := from_prompt_total t model (strStrip prompt0) out2 api
    have hac : attemptCost model (strStrip prompt0) = ci.total_cost := by
      unfold attemptCost; rw [hci]
    simp only [app_generate_image, hne, Bool.false_eq_true, if_false, hci, hok, hr, hac]
    ring

/-- Witness for the amended C3 at a concrete successful request. -/
theorem session_total_accounting_witness :
    sessionAfter defaultModel "out.png" [] 0
      = (([] : List (String × ApiOutcome)).map
          fun c => attemptCost defaultModel c.1).sum ∧
    (app_generate_image 0 "p" defaultModel "out.png"
      (.returns (some { candidates :=
        [{ content := { parts := [imgPart (List.replicate 1001 9)] } }] }))).1
      = 0 + 2 * ({ input_text_cost := 1 / 4000000
                   input_image_cost := 0
                   output_image_cost := 2734375 / 1000000000
                   total_cost := 2734625 / 1000000000
                   input_chars := 1 } : CostBreakdown).total_cost ∧
    app_reset_cost true 0 = (0, .ok 0) := by
  have hlen : 1000 < (List.replicate 1001 9).length := by
    rw [List.length_replicate]; norm_num
  have hci : calculate_cost defaultModel (strStrip "p") false = some
      { input_text_cost := 1 / 4000000
        input_image_cost := 0
        output_image_cost := 2734375 / 1000000000
        total_cost := 2734625 / 1000000000
        input_chars := 1 } := by
    have h1 : ("p").length = 1 := rfl
    have hs : strStrip "p" = "p" := rfl
    rw [hs]
    simp [calculate_cost, defaultModel, AVAILABLE_MODELS]
    norm_num [h1]
  have hok : (generate_image_from_prompt 0 defaultModel (strStrip "p") "out.png"
      (.returns (some { candidates :=
        [{ content := { parts := [imgPart (List.replicate 1001 9)] } }] }))).outcome
      = GenOutcome.ok "out.png" := by
    have hs : strStrip "p" = "p" := rfl
    rw [hs]
    exact (web_double_aux (List.replicate 1001 9) hlen).1
  exact session_total_accounting defaultModel "out.png" []
    (by intro c hc; cases hc) 0 "p" defaultModel "out.png" "out.png"
    (.returns (some { candidates :=
      [{ content := { parts := [imgPart (List.replicate 1001 9)] } }] }))
    { input_text_cost := 1 / 4000000
      input_image_cost := 0
      output_image_cost := 2734375 / 1000000000
      total_cost := 2734625 / 1000000000
      input_chars := 1 }
    rfl hci hok

end GeminiGen

namespace GeminiGen

/-- Model of `web_api.py` `GenerationTask` (lines 37–44), together with the two
attributes (`created_at`, `finished_at`) that `cleanup_old_tasks` probes
with `hasattr`; `Option` models attribute presence. -/
structure GenerationTask where
  task_id : String
  status : String
  progress : ℕ
  message : String
  result_path : Option String
  error : Option String
  created_at : Option ℚ
  finished_at : Option ℚ
deriving Repr, DecidableEq

/-- Model of `GenerationTask(task_id)` — `__init__`, lines 38–44.  Note that
`created_at` is never assigned here nor anywhere else in the repository. -/
def GenerationTask.init (task_id : String) : GenerationTask :=
  { task_id := task_id
    status := "pending"
    progress := 0
    message := "Task created"
    result_path := none
    error := none
    created_at := none
    finished_at := none }

/-- The worker's branch condition at line 146: the input-image path is used
iff a path was saved for the request and the file still exists. -/
def worker_uses_input (input_file_path : Option String)
    (fileExists : String → Bool) : Bool :=
  match input_file_path with
  | some p => fileExists p
  | none => false

/-- Model of `generate_image_background` (`web_api.py`, lines 127–173), as the list
of successive task states after each group of task-field mutations (head =
the task at entry).  `initResult` is the outcome of constructing
`GeminiImageGenerator` (line 135), `genResult` the outcome of the generator
call (ok: the returned result path; error: the exception's message).  In
the sequential model these are the only two fallible steps of the `try`
block; the input-file cleanup (lines 163–164, 172–173) is guarded by an
existence check and touches no task field. -/
def generate_image_background (t0 : GenerationTask)
    (initResult : Except String Unit) (input_file_path : Option String)
    (fileExists : String → Bool) (genResult : Except String String) :
    List GenerationTask :=
  let t1 := { t0 with status := "initializing", progress := 10,
                      message := "Initializing generator..." }
  match initResult with
  | .error m =>
    [t0, t1, { t1 with status := "error", error := some m,
                       message := "Error: " ++ m }]
  | .ok _ =>
    let t2 := { t1 with status := "generating", progress := 30,
                        message := "Generating image..." }
    let t3 :=
      if worker_uses_input input_file_path fileExists then
        { t2 with message := "Generating image with input..." }
      else
        { t2 with message := "Generating image from prompt..." }
    match genResult with
    | .ok result_path =>
      [t0, t1, t2, t3,
       { t3 with status := "completed", progress := 100,
                 message := "Image generated successfully!",
                 result_path := some result_path }]
    | .error m =>
      [t0, t1, t2, t3,
       { t3 with status := "error", error := some m,
                 message := "Error: " ++ m }]

/-- Terminal task statuses. -/
def isTerminal (s : String) : Bool := s == "completed" || s == "error"

/-- Stability of terminal statuses along a status trace: once a terminal
status appears, every later entry equals it. -/
def statusesOk (l : List String) : Prop :=
  ∀ i j : Fin l.length, i.val ≤ j.val → isTerminal (l.get i) = true →
    l.get j = l.get i

instance (l : List String) : Decidable (statusesOk l) := by
  unfold statusesOk; infer_instance

end GeminiGen

namespace GeminiGen

/-- Claim C5. For every outcome of the worker's fallible steps (generator
construction, generation call), every upload situation and every task id,
the status trace of `generate_image_background` run on a freshly created
task never leaves a terminal state: once `completed` or `error` appears,
every later status equals it (the worker sets a terminal status only as
its last mutation). -/
theorem terminal_status_stable (tid : String) (initResult : Except String Unit)
    (input_file_path : Option String) (fileExists : String → Bool)
    (genResult : Except String String) :
    statusesOk ((generate_image_background (GenerationTask.init tid) initResult
      input_file_path fileExists genResult).map fun t => t.status) := by
  cases initResult with
  | error m =>
    have hmap : (generate_image_background (GenerationTask.init tid) (.error m)
        input_file_path fileExists genResult).map (fun t => t.status)
        = ["pending", "initializing", "error"] := by
      simp [generate_image_background, GenerationTask.init]
    rw [hmap]; decide
  | ok u =>
    cases hb : worker_uses_input input_file_path fileExists with
    | false =>
      cases genResult with
      | ok rp =>
        have hmap : (generate_image_background (GenerationTask.init tid) (.ok u)
            input_file_path fileExists (.ok rp)).map (fun t => t.status)
            = ["pending", "initializing", "generating", "generating", "completed"] := by
          simp [generate_image_background, GenerationTask.init, hb]
        rw [hmap]; decide
      | error m =>
        have hmap : (generate_image_background (GenerationTask.init tid) (.ok u)
            input_file_path fileExists (.error m)).map (fun t => t.status)
            = ["pending", "initializing", "generating", "generating", "error"] := by
          simp [generate_image_background, GenerationTask.init, hb]
        rw [hmap]; decide
    | true =>
      cases genResult with
      | ok rp =>
        have hmap : (generate_image_background (GenerationTask.init tid) (.ok u)
            input_file_path fileExists (.ok rp)).map (fun t => t.status)
            = ["pending", "initializing", "generating", "generating", "completed"] := by
          simp [generate_image_background, GenerationTask.init, hb]
        rw [hmap]; decide
      | error m =>
        have hmap : (generate_image_background (GenerationTask.init tid) (.ok u)
            input_file_path fileExists (.error m)).map (fun t => t.status)
            = ["pending", "initializing", "generating", "generating", "error"] := by
          simp [generate_image_background, GenerationTask.init, hb]
        rw [hmap]; decide

end GeminiGen

namespace GeminiGen

/-- One task's treatment by the marking loop of `cleanup_old_tasks`
(`web_api.py`, lines 254–265): the possibly-updated task (the sweep
backfills `finished_at` on terminal tasks that lack it) and whether the
task id lands in `to_remove`. -/
def sweepMark (current_time : ℚ) (t : GenerationTask) : GenerationTask × Bool :=
  let remove_old : Bool :=
    match t.created_at with
    | some c => decide (3600 < current_time - c)
    | none => false
  if t.status == "completed" || t.status == "error" then
    match t.finished_at with
    | none => ({ t with finished_at := some current_time }, remove_old)
    | some f => (t, remove_old || decide (600 < current_time - f))
  else (t, remove_old)

/-- Model of `cleanup_old_tasks` (lines 249–272) on the registry `active_tasks`,
modelled as an association list with distinct ids (a Python dict).  The
mark loop and the delete loop collapse into a map-then-filter; deletion of
a removed task's result file (lines 270–271) touches no registry state. -/
def cleanup_old_tasks (current_time : ℚ)
    (reg : List (String × GenerationTask)) : List (String × GenerationTask) :=
  ((reg.map fun idt => (idt.1, sweepMark current_time idt.2)).filter
    fun x => !x.2.2).map fun x => (x.1, x.2.1)

end GeminiGen

namespace GeminiGen

/-- Claim C7. A task created by `GenerationTask.__init__` carries no
`created_at` attribute (nothing in the repository ever sets one), so the
sweep's age branch (`hasattr(task, 'created_at')`, line 256) can never
fire: a still-`pending` task created at time `0` survives a sweep at time
`7200` (two hours later) untouched, although the claim says any task older
than 3600 seconds is evicted regardless of status. -/
theorem stale_pending_task_not_evicted :
    (GenerationTask.init "t1").created_at = none ∧
    cleanup_old_tasks 7200 [("t1", GenerationTask.init "t1")]
      = [("t1", GenerationTask.init "t1")] := by
  constructor
  · rfl
  · simp [cleanup_old_tasks, sweepMark, GenerationTask.init]

end GeminiGen

namespace GeminiGen

/-- The extension allow-list of `allowed_file` (`web_api.py`, line 48). -/
def ALLOWED_EXTENSIONS : List String := ["png", "jpg", "jpeg", "gif", "bmp", "tiff"]

/-- Python's `str.lower`, on the character sequence. -/
def strLower (s : String) : String := ⟨s.data.map Char.toLower⟩

/-- Python's `filename.rsplit('.', 1)[1]`: the characters after the last
dot (meaningful when a dot is present, which `allowed_file` checks
first). -/
def extAfterLastDot (filename : String) : String :=
  ⟨(filename.data.reverse.takeWhile fun c => !(c == '.')).reverse⟩

/-- Model of `allowed_file` (`web_api.py`, lines 46–49): the name must contain a
dot and its lower-cased last extension must be in the allow-list. -/
def allowed_file (filename : String) : Bool :=
  filename.data.contains '.' &&
    ALLOWED_EXTENSIONS.contains (strLower (extAfterLastDot filename))

/-- An uploaded file as the handler sees it; only the client-supplied
filename matters to validation. -/
structure UploadedFile where
  filename : String
deriving Repr, DecidableEq

/-- Python truthiness of an optional form/JSON string (`None` and `""`
are falsy). -/
def truthy (o : Option String) : Bool :=
  match o with
  | none => false
  | some s => !s.data.isEmpty

/-- Model of `web_api.py` `/api/generate` handler (lines 71–125), up to the reply:
validate `api_key` and `prompt` (400 on a missing one), save the upload
only when a file was sent whose filename is non-empty and allowed (lines
94–100), register the task and hand `input_file_path` to the background
worker.  The reply is an error, or the new task's id together with the
`input_file_path` given to the worker (`none` when the upload was
ignored). -/
def webapi_generate (task_id saved_path : String)
    (api_key prompt : Option String) (input_image : Option UploadedFile) :
    Except (ℕ × String) (String × Option String) :=
  if truthy api_key = false then .error (400, "API key is required")
  else if truthy prompt = false then .error (400, "Prompt is required")
  else
    let input_file_path :=
      match input_image with
      | none => none
      | some f =>
        if !f.filename.data.isEmpty && allowed_file f.filename then some saved_path
        else none
    .ok (task_id, input_file_path)

end GeminiGen

namespace GeminiGen

/-- Claim C10. A POST to `/api/generate` with a truthy api_key and prompt but
an uploaded file whose name is empty or whose extension is not allowed is
still accepted — the task is created and its id returned — with
`input_file_path = none`, and the background worker therefore takes the
prompt-only branch (`worker_uses_input none` is `false`, so line 146's
condition fails and `generate_image_from_prompt` is called): the
disallowed upload is silently ignored rather than rejected. -/
theorem disallowed_upload_ignored (task_id saved_path : String)
    (api_key prompt : Option String) (f : UploadedFile)
    (hkey : truthy api_key = true) (hprompt : truthy prompt = true)
    (hbad : f.filename = "" ∨ allowed_file f.filename = false) :
    webapi_generate task_id saved_path api_key prompt (some f)
      = .ok (task_id, none) ∧
    ∀ fileExists : String → Bool, worker_uses_input none fileExists = false := by
  refine ⟨?_, fun fe => rfl⟩
  unfold webapi_generate
  rw [hkey, hprompt]
  rcases hbad with hb | hb
  · simp [hb]
  · simp [hb]

/-- Witness for C10: a valid key and prompt with an `.exe` upload. -/
theorem disallowed_upload_ignored_witness :
    webapi_generate "T1" "uploads/x" (some "k") (some "hello")
      (some { filename := "malware.exe" }) = .ok ("T1", none) ∧
    ∀ fileExists : String → Bool, worker_uses_input none fileExists = false :=
  disallowed_upload_ignored "T1" "uploads/x" (some "k") (some "hello")
    { filename := "malware.exe" } rfl rfl (Or.inr (by decide))

end GeminiGen
